/-
Verification of the conversation-and-extraction pipeline of the
YouTube Analysis Assistant (src/main.py).

The embedding models:
  * the response-section extractor, i.e. the semantics of
    `re.search(r"Thumbnail Prompt:(.*?)Content Enhancement:", output, re.DOTALL)`
    followed by `match.group(1).strip()`;
  * the prompt builder `create_prompt`;
  * the per-interaction script body (session state, the three action
    branches, the clear handler and the display block) as a step function
    over an explicit session state, with the remote collaborators
    (chat model, transcription, UTF-8 decoding, image synthesis) taken
    as oracle parameters.
-/
import Mathlib

namespace YTAnalyzer

/-! ## Python string helpers -/

/-- Python `str.strip` whitespace set (ASCII part; the replies and labels in
question contain only ASCII whitespace). -/
def pyWhitespace (c : Char) : Bool :=
  c == ' ' || c == '\t' || c == '\n' || c == '\r' || c == '\x0b' || c == '\x0c'

/-- Python `str.strip`: drop leading and trailing whitespace. -/
def pyStrip (l : List Char) : List Char :=
  ((l.dropWhile pyWhitespace).reverse.dropWhile pyWhitespace).reverse

/-! ## Regex semantics of the extractor

`re.search(start + "(.*?)" + end, s, re.DOTALL)` for literal labels:
scan positions left to right; at the first position where the start label
matches and the end label occurs somewhere at or after the end of the start
label, succeed, with group(1) running up to the earliest such end occurrence
(the `*?` quantifier is lazy and `.` matches newlines under DOTALL). -/

/-- `occursAt p s i`: the literal `p` matches in `s` at position `i`. -/
def occursAt (p s : List Char) (i : Nat) : Bool :=
  p.isPrefixOf (s.drop i)

/-- Index of the first occurrence of the literal `p` in `s`, if any. -/
def findSub (p : List Char) : List Char → Option Nat
  | [] => if p.isPrefixOf ([] : List Char) then some 0 else none
  | c :: rest =>
    if p.isPrefixOf (c :: rest) then some 0
    else (findSub p rest).map (· + 1)

/-- A full regex match `startL(.*?)endL` can begin at position `i` of `s`. -/
def matchAt (startL endL s : List Char) (i : Nat) : Bool :=
  occursAt startL s i && (findSub endL (s.drop (i + startL.length))).isSome

/-- The group(1) text of `re.search(startL + "(.*?)" + endL, s, re.DOTALL)`:
leftmost match position, lazily shortest group. -/
def reSearchBetween (startL endL : List Char) : List Char → Option (List Char)
  | [] =>
    if startL.isPrefixOf ([] : List Char) then
      match findSub endL (([] : List Char).drop startL.length) with
      | some j => some ((([] : List Char).drop startL.length).take j)
      | none => none
    else none
  | c :: rest =>
    if startL.isPrefixOf (c :: rest) then
      match findSub endL ((c :: rest).drop startL.length) with
      | some j => some (((c :: rest).drop startL.length).take j)
      | none => reSearchBetween startL endL rest
    else reSearchBetween startL endL rest

/-- Start label of the pattern at src/main.py:274. -/
def thumbStart : List Char := "Thumbnail Prompt:".toList

/-- End label of the pattern at src/main.py:274. -/
def thumbEnd : List Char := "Content Enhancement:".toList

/-- The extractor applied to a reply: group(1) of the thumbnail pattern,
stripped (src/main.py:274-283). -/
def extractThumbnail (reply : String) : Option String :=
  (reSearchBetween thumbStart thumbEnd reply.toList).map
    (fun g => String.mk (pyStrip g))

/-! ## Prompt builder (src/main.py:63-94)

The Python triple-quoted literals use `\`-newline continuations inside the
string, which delete the backslash and newline and keep the next line's
indentation; the strings below are the resulting values, byte for byte.
`PromptTemplate.format` substitutes `context` and `questions` into the
template verbatim (values are not re-processed), so the built prompt is the
concatenation below. -/

/-- The `questions` checklist constant of `create_prompt` (src/main.py:73-80). -/
def questions : String :=
  "\n    1. Engaging Title: Propose a list catchy and appealing titles that encapsulates the essence of the content.     2. SEO Tags: Identify a list of SEO-friendly tags that are relevant to the content and could improve its searchability.     3. Thumbnail Prompt: Generate a prompt that describes the elements of an eye-catching thumbnail that would compel viewers to click.     4. Content Enhancement: Offer specific suggestions on how the content could be improved for viewer engagement and retention.     5. Viral Segment: Identify and provide best section that might have the potential to be engaging or entertaining for a short-form viral video based on factors like humor, uniqueness, relatability, or other notable elements.     6. Viral Segment Explanation: After you provide the segment, explain why.     "

/-- Template text before the `context` slot (src/main.py:81-86). -/
def promptPre : String :=
  "You are a engaging humorous expert content editor.     Your first task is to provide a concise 4-6 sentence  summary of the given text as if you were preparing an introduction for a personal blog post.     Begin your summary with a phrase such as \x27In this post\x27 or \x27In this interview,\x27 setting the stage for what the reader can expect.\n    Your second task is to provide your responses to the following inquiries in the form of bullet points:      \n    "

/-- Template text between the `context` and `questions` slots (src/main.py:86-90). -/
def promptMid : String :=
  "\n\n    Provide Summary Here: \n    \n    Answer Tasks Here: "

/-- Template text after the `questions` slot (src/main.py:90-91). -/
def promptSuf : String :=
  "\n    "

/-- `create_prompt` (src/main.py:63-94): the formatted template. -/
def create_prompt (context : String) : String :=
  promptPre ++ context ++ promptMid ++ questions ++ promptSuf

/-- The six checklist items, as they occur contiguously in `questions`. -/
def checklistItems : List (List Char) :=
  [ "1. Engaging Title: Propose a list catchy and appealing titles that encapsulates the essence of the content.".toList
  , "2. SEO Tags: Identify a list of SEO-friendly tags that are relevant to the content and could improve its searchability.".toList
  , "3. Thumbnail Prompt: Generate a prompt that describes the elements of an eye-catching thumbnail that would compel viewers to click.".toList
  , "4. Content Enhancement: Offer specific suggestions on how the content could be improved for viewer engagement and retention.".toList
  , "5. Viral Segment: Identify and provide best section that might have the potential to be engaging or entertaining for a short-form viral video based on factors like humor, uniqueness, relatability, or other notable elements.".toList
  , "6. Viral Segment Explanation: After you provide the segment, explain why.".toList ]

/-- Sequential containment: each pattern occurs, and after the position of
each the next still occurs. -/
def appearsInOrder : List (List Char) → List Char → Bool
  | [], _ => true
  | p :: ps, s =>
    match findSub p s with
    | none => false
    | some i => appearsInOrder ps (s.drop (i + p.length))

/-! ## Session orchestrator (the script body, src/main.py:188-288)

Per Streamlit's execution model the whole script re-runs once per user
interaction; `st.session_state` and the cached `chain` survive across runs,
local variables (such as `output`) do not.  We model one run as a step
function over an explicit state.  The remote collaborators are oracles. -/

/-- Chat-completion failure (boto3/Bedrock exception out of `chain(...)`). -/
structure InferenceError where
  msg : String
deriving DecidableEq, Repr

/-- Video transcript acquisition failure (YoutubeLoader exception). -/
structure AcquisitionError where
  msg : String
deriving DecidableEq, Repr

/-- Uploaded-document UTF-8 decoding failure. -/
structure DecodeError where
  msg : String
deriving DecidableEq, Repr

/-- Image-synthesis failure (Bedrock exception out of `generate_image`). -/
structure GenerationError where
  msg : String
deriving DecidableEq, Repr

/-- Exceptions that can abort an action branch. -/
inductive ActionError where
  | acquisition (e : AcquisitionError)
  | decode (e : DecodeError)
  | inference (e : InferenceError)
deriving DecidableEq, Repr

/-- Uncaught exceptions of one script run. -/
inductive ScriptError where
  | action (e : ActionError)
  | generation (e : GenerationError)
deriving DecidableEq, Repr

/-- The remote collaborators, as oracles.  `llm` receives the chat memory the
chain resends on every call together with the new message. -/
structure Env where
  llm : List (String × String) → String → Except InferenceError String
  get_video_transcript : String → Except AcquisitionError String
  decode_utf8 : List Nat → Except DecodeError String
  generate_image : String → Except GenerationError String
  base64_to_pil : String → List Nat

/-- The persistent state: the four `st.session_state` entries created at
src/main.py:192-199 plus the `ConversationBufferMemory` inside the cached
`chain` (src/main.py:183-189). -/
structure SessionState where
  generated : List String
  previous : List String
  unique_id : String
  unique_id_2 : String
  memory : List (String × String)
deriving DecidableEq, Repr

/-- The widget values read during one script run.  `fresh_id` and
`fresh_id_2` are the `randint` draws used if the clear branch fires;
`user_input` is the text area value (a `str`, hence never `None`). -/
structure Inputs where
  clear_button : Bool
  fresh_id : String
  fresh_id_2 : String
  url : String
  submitted_button : Bool
  uploaded_file : Option (List Nat)
  file_submitted_button : Bool
  user_input : String
  submit_button : Bool
deriving DecidableEq, Repr

/-- `chain(message)["response"]` (src/main.py:232 etc.): `ConversationChain`
invokes the model on the current memory plus the message; on success
`ConversationBufferMemory.save_context` appends the `(input, reply)` pair;
on failure the exception propagates with the memory untouched. -/
def chainCall (env : Env) (memory : List (String × String)) (msg : String) :
    Except InferenceError (List (String × String) × String) :=
  match env.llm memory msg with
  | Except.error e => Except.error e
  | Except.ok reply => Except.ok (memory ++ [(msg, reply)], reply)

/-- The clear-button handler (src/main.py:206-208). -/
def handleClear (st : SessionState) (inp : Inputs) : SessionState :=
  if inp.clear_button then
    { generated := [], previous := [], unique_id := inp.fresh_id,
      unique_id_2 := inp.fresh_id_2, memory := [] }
  else st

/-- The direct-message branch (src/main.py:231-234). -/
def directBranch (env : Env) (st : SessionState) (user_input : String) :
    SessionState × Except ActionError (Option String) :=
  match chainCall env st.memory user_input with
  | Except.error e => (st, Except.error (ActionError.inference e))
  | Except.ok (mem2, output) =>
    ({ st with memory := mem2,
               previous := st.previous ++ [user_input],
               generated := st.generated ++ [output] },
     Except.ok (some output))

/-- The document-submission branch (src/main.py:237-243). -/
def fileBranch (env : Env) (st : SessionState) (bytes : List Nat) :
    SessionState × Except ActionError (Option String) :=
  match env.decode_utf8 bytes with
  | Except.error e => (st, Except.error (ActionError.decode e))
  | Except.ok file_content =>
    match chainCall env st.memory (create_prompt file_content) with
    | Except.error e => (st, Except.error (ActionError.inference e))
    | Except.ok (mem2, output) =>
      ({ st with memory := mem2,
                 previous := st.previous ++ ["File received. Currently reviewing..."],
                 generated := st.generated ++ [output] },
       Except.ok (some output))

/-- The video-submission branch (src/main.py:246-262).  The
`convert_to_text_file` / `st.download_button` file export has no effect on
session state and is omitted. -/
def videoBranch (env : Env) (st : SessionState) (url : String) :
    SessionState × Except ActionError (Option String) :=
  match env.get_video_transcript url with
  | Except.error e => (st, Except.error (ActionError.acquisition e))
  | Except.ok contents =>
    match chainCall env st.memory (create_prompt contents) with
    | Except.error e => (st, Except.error (ActionError.inference e))
    | Except.ok (mem2, output) =>
      ({ st with memory := mem2,
                 previous := st.previous ++ ["Video received. Currently reviewing..."],
                 generated := st.generated ++ [output] },
       Except.ok (some output))

/-- The `if submit_button and user_input: ... elif ... elif ...` dispatch
(src/main.py:231-262).  Returns the state after the branch together with
either the uncaught exception or the value of the local `output` (`none`
when no branch ran, so `output` stays unbound).  `user_input is not None`
always holds (`st.text_area` yields a `str`), so the third branch is
guarded by `submitted_button` alone. -/
def handleAction (env : Env) (st : SessionState) (inp : Inputs) :
    SessionState × Except ActionError (Option String) :=
  if inp.submit_button && (inp.user_input != "") then
    directBranch env st inp.user_input
  else match inp.uploaded_file, inp.file_submitted_button with
  | some bytes, true => fileBranch env st bytes
  | _, _ =>
    if inp.submitted_button then videoBranch env st inp.url
    else (st, Except.ok none)

/-- The text recorded in `previous` by whichever branch of the dispatch
fires: the user message, or the placeholder labels of src/main.py:242,261. -/
def labelOf (inp : Inputs) : String :=
  if inp.submit_button && (inp.user_input != "") then inp.user_input
  else match inp.uploaded_file, inp.file_submitted_button with
  | some _, true => "File received. Currently reviewing..."
  | _, _ => "Video received. Currently reviewing..."

/-- Prefix of the image prompt built at src/main.py:284. -/
def imagePromptPre : String :=
  "Create a colorful engaging YouTube Thumbnail without text based on this design: "

/-- The display block (src/main.py:268-287): when history is non-empty, run
the extractor on the local `output` (the `NameError` from an unbound
`output` is caught and treated as no match, src/main.py:275-280); on a
match call `generate_image` and decode the result; `generate_image`
exceptions are not caught.  Returns the displayed image, if any. -/
def runDisplay (env : Env) (st : SessionState) (output : Option String) :
    Except GenerationError (Option (List Nat)) :=
  if st.previous.isEmpty then Except.ok none
  else
    match
      (match output with
       | none => none
       | some o => reSearchBetween thumbStart thumbEnd o.toList) with
    | some g =>
      match env.generate_image (imagePromptPre ++ String.mk (pyStrip g)) with
      | Except.error e => Except.error e
      | Except.ok b64 => Except.ok (some (env.base64_to_pil b64))
    | none => Except.ok none

/-- One full script run: clear handler, action dispatch, display block.
Returns the session state as it stands when the run ends (state mutations
survive an uncaught exception) and either the uncaught exception or the
pair (value of `output`, displayed image). -/
def runScript (env : Env) (st : SessionState) (inp : Inputs) :
    SessionState × Except ScriptError (Option String × Option (List Nat)) :=
  match handleAction env (handleClear st inp) inp with
  | (st2, Except.error e) => (st2, Except.error (ScriptError.action e))
  | (st2, Except.ok output) =>
    match runDisplay env st2 output with
    | Except.error e => (st2, Except.error (ScriptError.generation e))
    | Except.ok img => (st2, Except.ok (output, img))

/-- The state left by one script run. -/
def runScriptS (env : Env) (st : SessionState) (inp : Inputs) : SessionState :=
  (runScript env st inp).1

/-- Iterated script runs. -/
def runList (env : Env) : SessionState → List Inputs → SessionState
  | st, [] => st
  | st, i :: rest => runList env (runScriptS env st i) rest

/-- The run's action branch fired and succeeded, producing a reply. -/
def ActionOk (env : Env) (st : SessionState) (inp : Inputs) : Prop :=
  ∃ o, (handleAction env (handleClear st inp) inp).2 = Except.ok (some o)

/-- Every run in the sequence is a successful action. -/
def SuccessfulRun (env : Env) : SessionState → List Inputs → Prop
  | _, [] => True
  | st, i :: rest => ActionOk env st i ∧ SuccessfulRun env (runScriptS env st i) rest

/-- The (input-or-placeholder, reply) exchanges produced by a sequence of
runs (error or no-op runs produce none). -/
def exchangesOf (env : Env) : SessionState → List Inputs → List (String × String)
  | _, [] => []
  | st, i :: rest =>
    (match (handleAction env (handleClear st i) i).2 with
     | Except.ok (some o) => [(labelOf i, o)]
     | _ => []) ++ exchangesOf env (runScriptS env st i) rest

/-! ## Lemmas about the literal-search primitives -/

theorem occursAt_cons_succ (p : List Char) (c : Char) (rest : List Char) (k : Nat) :
    occursAt p (c :: rest) (k + 1) = occursAt p rest k := rfl

theorem occursAt_nil (p : List Char) (k : Nat) :
    occursAt p ([] : List Char) k = p.isPrefixOf ([] : List Char) := by
  simp [occursAt]

theorem findSub_none_no_occurs {p : List Char} :
    ∀ {t : List Char}, findSub p t = none → ∀ k, occursAt p t k = false := by
  intro t
  induction t with
  | nil =>
    intro h k
    rw [occursAt_nil]
    simp only [findSub] at h
    split at h
    · exact absurd h (by simp)
    · rename_i hpre
      simp only [Bool.not_eq_true] at hpre
      exact hpre
  | cons c rest ih =>
    intro h k
    simp only [findSub] at h
    split at h
    · exact absurd h (by simp)
    · rename_i hpre
      simp only [Bool.not_eq_true] at hpre
      have hrest : findSub p rest = none := by
        cases hf : findSub p rest
        · rfl
        · rw [hf] at h; simp at h
      cases k with
      | zero =>
        simp only [occursAt, List.drop_zero]
        exact hpre
      | succ k => rw [occursAt_cons_succ]; exact ih hrest k

theorem findSub_some_occurs {p : List Char} :
    ∀ {t : List Char} {m : Nat}, findSub p t = some m → occursAt p t m = true := by
  intro t
  induction t with
  | nil =>
    intro m h
    simp only [findSub] at h
    split at h
    · cases h; rw [occursAt_nil]; assumption
    · exact absurd h (by simp)
  | cons c rest ih =>
    intro m h
    simp only [findSub] at h
    split at h
    · rename_i hpre
      cases h
      simp only [occursAt, List.drop_zero]
      exact hpre
    · cases hf : findSub p rest with
      | none => rw [hf] at h; simp at h
      | some m' =>
        rw [hf] at h
        simp at h
        subst h
        rw [occursAt_cons_succ]
        exact ih hf

theorem findSub_complete {p : List Char} :
    ∀ {t : List Char} {j : Nat}, occursAt p t j = true →
      (∀ k, k < j → occursAt p t k = false) → findSub p t = some j := by
  intro t
  induction t with
  | nil =>
    intro j hj hmin
    rw [occursAt_nil] at hj
    have hj0 : j = 0 := by
      by_contra hne
      have h0 := hmin 0 (Nat.pos_of_ne_zero hne)
      rw [occursAt_nil] at h0
      rw [hj] at h0
      exact absurd h0 (by simp)
    subst hj0
    simp [findSub, hj]
  | cons c rest ih =>
    intro j hj hmin
    cases j with
    | zero =>
      simp only [occursAt, List.drop_zero] at hj
      simp [findSub, hj]
    | succ j =>
      have h0 := hmin 0 (Nat.succ_pos j)
      simp only [occursAt, List.drop_zero] at h0
      rw [occursAt_cons_succ] at hj
      have hmin' : ∀ k, k < j → occursAt p rest k = false := by
        intro k hk
        have := hmin (k + 1) (Nat.succ_lt_succ hk)
        rwa [occursAt_cons_succ] at this
      simp [findSub, h0, ih hj hmin']

theorem occursAt_drop (p t : List Char) (a k : Nat) :
    occursAt p (t.drop a) k = occursAt p t (a + k) := by
  simp [occursAt, List.drop_drop, Nat.add_comm]

theorem matchAt_cons_succ (startL endL : List Char) (c : Char) (rest : List Char) (k : Nat) :
    matchAt startL endL (c :: rest) (k + 1) = matchAt startL endL rest k := by
  have h : k + 1 + startL.length = (k + startL.length) + 1 := by omega
  simp only [matchAt, occursAt_cons_succ, h, List.drop_succ_cons]

/-! ## Lemmas about the regex search -/

theorem reSearch_none_of_no_start {startL endL : List Char} :
    ∀ {s : List Char}, (∀ k, occursAt startL s k = false) →
      reSearchBetween startL endL s = none := by
  intro s
  induction s with
  | nil =>
    intro h
    have h0 := h 0
    rw [occursAt_nil] at h0
    simp [reSearchBetween, h0]
  | cons c rest ih =>
    intro h
    have h0 := h 0
    simp only [occursAt, List.drop_zero] at h0
    simp only [reSearchBetween, h0]
    simp only [Bool.false_eq_true, if_false]
    exact ih (fun k => by rw [← occursAt_cons_succ (c := c)]; exact h (k + 1))

theorem reSearch_none_of_no_end {startL endL : List Char} :
    ∀ {s : List Char}, (∀ k, occursAt endL s k = false) →
      reSearchBetween startL endL s = none := by
  intro s
  induction s with
  | nil =>
    intro h
    have h0 := h 0
    rw [occursAt_nil] at h0
    have hf : findSub endL ([] : List Char) = none := by
      simp [findSub, h0]
    simp only [reSearchBetween, List.drop_nil, hf]
    split <;> rfl
  | cons c rest ih =>
    intro h
    have hf : findSub endL ((c :: rest).drop startL.length) = none := by
      cases hx : findSub endL ((c :: rest).drop startL.length) with
      | none => rfl
      | some m =>
        have := findSub_some_occurs hx
        rw [occursAt_drop] at this
        rw [h (startL.length + m)] at this
        exact absurd this (by simp)
    have hrest := ih (fun k => by rw [← occursAt_cons_succ (c := c)]; exact h (k + 1))
    simp only [reSearchBetween, hf]
    split <;> exact hrest

theorem reSearch_none_of_order {startL endL : List Char} :
    ∀ {s : List Char},
      (∀ a b, occursAt startL s a = true → occursAt endL s b = true → b < a) →
      reSearchBetween startL endL s = none := by
  intro s
  induction s with
  | nil =>
    intro h
    by_cases hs : startL.isPrefixOf ([] : List Char) = true
    · have hf : findSub endL ([] : List Char) = none := by
        cases hx : findSub endL ([] : List Char) with
        | none => rfl
        | some m =>
          have hocc := findSub_some_occurs hx
          rw [occursAt_nil] at hocc
          have hstart : occursAt startL ([] : List Char) 0 = true := by
            rw [occursAt_nil]; exact hs
          have hend : occursAt endL ([] : List Char) (startL.length + m) = true := by
            rw [occursAt_nil]; exact hocc
          exact absurd (h 0 (startL.length + m) hstart hend) (by omega)
      simp only [reSearchBetween, List.drop_nil, hs, if_true, hf]
    · simp [reSearchBetween, hs]
  | cons c rest ih =>
    intro h
    by_cases hs : startL.isPrefixOf (c :: rest) = true
    · have hstart : occursAt startL (c :: rest) 0 = true := by
        simp only [occursAt, List.drop_zero]; exact hs
      have hf : findSub endL ((c :: rest).drop startL.length) = none := by
        cases hx : findSub endL ((c :: rest).drop startL.length) with
        | none => rfl
        | some m =>
          have hocc := findSub_some_occurs hx
          rw [occursAt_drop] at hocc
          exact absurd (h 0 (startL.length + m) hstart hocc) (by omega)
      have hrest := ih (fun a b ha hb => by
        have := h (a + 1) (b + 1)
          (by rw [occursAt_cons_succ]; exact ha)
          (by rw [occursAt_cons_succ]; exact hb)
        omega)
      simp only [reSearchBetween, hs, if_true, hf]
      exact hrest
    · have hrest := ih (fun a b ha hb => by
        have := h (a + 1) (b + 1)
          (by rw [occursAt_cons_succ]; exact ha)
          (by rw [occursAt_cons_succ]; exact hb)
        omega)
      simp only [reSearchBetween, hs]
      simp only [Bool.false_eq_true, if_false]
      exact hrest

theorem reSearch_pos {startL endL : List Char} :
    ∀ {s : List Char} {i j : Nat},
      occursAt startL s i = true →
      (∀ k, k < i → matchAt startL endL s k = false) →
      findSub endL (s.drop (i + startL.length)) = some j →
      reSearchBetween startL endL s = some ((s.drop (i + startL.length)).take j) := by
  intro s
  induction s with
  | nil =>
    intro i j hi hmin hj
    rw [occursAt_nil] at hi
    rw [List.drop_nil] at hj
    have hj' : findSub endL (([] : List Char).drop startL.length) = some j := by
      rw [List.drop_nil]; exact hj
    simp only [reSearchBetween, hi, if_true, hj']
    simp [List.drop_nil]
  | cons c rest ih =>
    intro i j hi hmin hj
    cases i with
    | zero =>
      simp only [occursAt, List.drop_zero] at hi
      rw [Nat.zero_add] at hj
      simp only [reSearchBetween, hi, if_true, hj]
      simp [Nat.zero_add]
    | succ i =>
      have harith : i + 1 + startL.length = (i + startL.length) + 1 := by omega
      rw [harith, List.drop_succ_cons] at hj
      rw [occursAt_cons_succ] at hi
      have hmin' : ∀ k, k < i → matchAt startL endL rest k = false := by
        intro k hk
        rw [← matchAt_cons_succ (c := c)]
        exact hmin (k + 1) (by omega)
      have hrec := ih hi hmin' hj
      have hgoal : ((c :: rest).drop (i + 1 + startL.length)).take j
          = (rest.drop (i + startL.length)).take j := by
        rw [harith, List.drop_succ_cons]
      rw [hgoal]
      by_cases hs : startL.isPrefixOf (c :: rest) = true
      · have h0 := hmin 0 (Nat.succ_pos i)
        simp only [matchAt, occursAt, List.drop_zero, Nat.zero_add, hs,
          Bool.true_and] at h0
        have hf : findSub endL ((c :: rest).drop startL.length) = none := by
          cases hx : findSub endL ((c :: rest).drop startL.length) with
          | none => rfl
          | some m => rw [hx] at h0; exact absurd h0 (by simp)
        simp only [reSearchBetween, hs, if_true, hf]
        exact hrec
      · simp only [reSearchBetween, hs]
        simp only [Bool.false_eq_true, if_false]
        exact hrec

/-! ## Lemmas about the action dispatch -/

theorem directBranch_ok_some {env : Env} {st : SessionState} {u o : String}
    (h : (directBranch env st u).2 = Except.ok (some o)) :
    (directBranch env st u).1.previous = st.previous ++ [u] ∧
    (directBranch env st u).1.generated = st.generated ++ [o] ∧
    (directBranch env st u).1.memory = st.memory ++ [(u, o)] := by
  unfold directBranch chainCall at *
  cases hcc : env.llm st.memory u with
  | error e => rw [hcc] at h; exact Except.noConfusion h
  | ok reply =>
    rw [hcc] at h
    have hoo : reply = o := Option.some.inj (Except.ok.inj h)
    subst hoo
    exact ⟨rfl, rfl, rfl⟩

theorem directBranch_error {env : Env} {st : SessionState} {u : String}
    {e : ActionError} (h : (directBranch env st u).2 = Except.error e) :
    (directBranch env st u).1 = st := by
  unfold directBranch chainCall at *
  cases hcc : env.llm st.memory u with
  | error e2 => rw [hcc] at h
  | ok reply => rw [hcc] at h; exact Except.noConfusion h

theorem directBranch_not_ok_none {env : Env} {st : SessionState} {u : String}
    (h : (directBranch env st u).2 = Except.ok none) : False := by
  unfold directBranch chainCall at h
  cases hcc : env.llm st.memory u with
  | error e => rw [hcc] at h; exact Except.noConfusion h
  | ok reply => rw [hcc] at h; exact Option.noConfusion (Except.ok.inj h)

theorem fileBranch_ok_some {env : Env} {st : SessionState} {bytes : List Nat}
    {o : String} (h : (fileBranch env st bytes).2 = Except.ok (some o)) :
    (fileBranch env st bytes).1.previous
      = st.previous ++ ["File received. Currently reviewing..."] ∧
    (fileBranch env st bytes).1.generated = st.generated ++ [o] := by
  unfold fileBranch chainCall at *
  cases hd : env.decode_utf8 bytes with
  | error e => rw [hd] at h; exact Except.noConfusion h
  | ok file_content =>
    rw [hd] at h
    dsimp only at h ⊢
    cases hcc : env.llm st.memory (create_prompt file_content) with
    | error e => rw [hcc] at h; exact Except.noConfusion h
    | ok reply =>
      rw [hcc] at h
      have hoo : reply = o := Option.some.inj (Except.ok.inj h)
      subst hoo
      exact ⟨rfl, rfl⟩

theorem fileBranch_error {env : Env} {st : SessionState} {bytes : List Nat}
    {e : ActionError} (h : (fileBranch env st bytes).2 = Except.error e) :
    (fileBranch env st bytes).1 = st := by
  unfold fileBranch chainCall at *
  cases hd : env.decode_utf8 bytes with
  | error e2 => rw [hd] at h
  | ok file_content =>
    rw [hd] at h
    dsimp only at h ⊢
    cases hcc : env.llm st.memory (create_prompt file_content) with
    | error e2 => rw [hcc] at h
    | ok reply => rw [hcc] at h; exact Except.noConfusion h

theorem fileBranch_not_ok_none {env : Env} {st : SessionState} {bytes : List Nat}
    (h : (fileBranch env st bytes).2 = Except.ok none) : False := by
  unfold fileBranch chainCall at h
  cases hd : env.decode_utf8 bytes with
  | error e => rw [hd] at h; exact Except.noConfusion h
  | ok file_content =>
    rw [hd] at h
    dsimp only at h
    cases hcc : env.llm st.memory (create_prompt file_content) with
    | error e => rw [hcc] at h; exact Except.noConfusion h
    | ok reply => rw [hcc] at h; exact Option.noConfusion (Except.ok.inj h)

theorem videoBranch_ok_some {env : Env} {st : SessionState} {url : String}
    {o : String} (h : (videoBranch env st url).2 = Except.ok (some o)) :
    (videoBranch env st url).1.previous
      = st.previous ++ ["Video received. Currently reviewing..."] ∧
    (videoBranch env st url).1.generated = st.generated ++ [o] := by
  unfold videoBranch chainCall at *
  cases ht : env.get_video_transcript url with
  | error e => rw [ht] at h; exact Except.noConfusion h
  | ok contents =>
    rw [ht] at h
    dsimp only at h ⊢
    cases hcc : env.llm st.memory (create_prompt contents) with
    | error e => rw [hcc] at h; exact Except.noConfusion h
    | ok reply =>
      rw [hcc] at h
      have hoo : reply = o := Option.some.inj (Except.ok.inj h)
      subst hoo
      exact ⟨rfl, rfl⟩

theorem videoBranch_error {env : Env} {st : SessionState} {url : String}
    {e : ActionError} (h : (videoBranch env st url).2 = Except.error e) :
    (videoBranch env st url).1 = st := by
  unfold videoBranch chainCall at *
  cases ht : env.get_video_transcript url with
  | error e2 => rw [ht] at h
  | ok contents =>
    rw [ht] at h
    dsimp only at h ⊢
    cases hcc : env.llm st.memory (create_prompt contents) with
    | error e2 => rw [hcc] at h
    | ok reply => rw [hcc] at h; exact Except.noConfusion h

theorem videoBranch_not_ok_none {env : Env} {st : SessionState} {url : String}
    (h : (videoBranch env st url).2 = Except.ok none) : False := by
  unfold videoBranch chainCall at h
  cases ht : env.get_video_transcript url with
  | error e => rw [ht] at h; exact Except.noConfusion h
  | ok contents =>
    rw [ht] at h
    dsimp only at h
    cases hcc : env.llm st.memory (create_prompt contents) with
    | error e => rw [hcc] at h; exact Except.noConfusion h
    | ok reply => rw [hcc] at h; exact Option.noConfusion (Except.ok.inj h)

/-! Dispatch lemmas: which branch runs under which widget values. -/

theorem handleAction_direct (env : Env) (st : SessionState) (inp : Inputs)
    (h1 : (inp.submit_button && (inp.user_input != "")) = true) :
    handleAction env st inp = directBranch env st inp.user_input ∧
    labelOf inp = inp.user_input := by
  unfold handleAction labelOf
  exact ⟨by rw [if_pos h1], by rw [if_pos h1]⟩

theorem handleAction_file (env : Env) (st : SessionState) (inp : Inputs)
    {bytes : List Nat}
    (h1 : (inp.submit_button && (inp.user_input != "")) = false)
    (huf : inp.uploaded_file = some bytes)
    (hfs : inp.file_submitted_button = true) :
    handleAction env st inp = fileBranch env st bytes ∧
    labelOf inp = "File received. Currently reviewing..." := by
  have h1n : ¬(inp.submit_button && (inp.user_input != "")) = true := by
    rw [h1]; exact Bool.false_ne_true
  unfold handleAction labelOf
  rw [if_neg h1n, if_neg h1n, huf, hfs]
  exact ⟨rfl, rfl⟩

theorem handleAction_video (env : Env) (st : SessionState) (inp : Inputs)
    (h1 : (inp.submit_button && (inp.user_input != "")) = false)
    (h2 : inp.uploaded_file = none ∨ inp.file_submitted_button = false)
    (h3 : inp.submitted_button = true) :
    handleAction env st inp = videoBranch env st inp.url ∧
    labelOf inp = "Video received. Currently reviewing..." := by
  have h1n : ¬(inp.submit_button && (inp.user_input != "")) = true := by
    rw [h1]; exact Bool.false_ne_true
  unfold handleAction labelOf
  rw [if_neg h1n, if_neg h1n]
  rcases h2 with huf | hfs
  · rw [huf]
    cases hfu : inp.file_submitted_button <;> exact ⟨by rw [if_pos h3], rfl⟩
  · rw [hfs]
    cases hfu : inp.uploaded_file <;> exact ⟨by rw [if_pos h3], rfl⟩

theorem handleAction_noop (env : Env) (st : SessionState) (inp : Inputs)
    (h1 : (inp.submit_button && (inp.user_input != "")) = false)
    (h2 : inp.uploaded_file = none ∨ inp.file_submitted_button = false)
    (h3 : inp.submitted_button = false) :
    handleAction env st inp = (st, Except.ok none) := by
  have h1n : ¬(inp.submit_button && (inp.user_input != "")) = true := by
    rw [h1]; exact Bool.false_ne_true
  have h3n : ¬inp.submitted_button = true := by
    rw [h3]; exact Bool.false_ne_true
  unfold handleAction
  rw [if_neg h1n]
  rcases h2 with huf | hfs
  · rw [huf]
    cases hfu : inp.file_submitted_button <;> rw [if_neg h3n]
  · rw [hfs]
    cases hfu : inp.uploaded_file <;> rw [if_neg h3n]

/-- A successful action appends exactly one entry to each history list:
the input (or placeholder) label and the reply. -/
theorem handleAction_ok_some {env : Env} {st : SessionState} {inp : Inputs}
    {o : String} (h : (handleAction env st inp).2 = Except.ok (some o)) :
    (handleAction env st inp).1.previous = st.previous ++ [labelOf inp] ∧
    (handleAction env st inp).1.generated = st.generated ++ [o] := by
  by_cases h1 : (inp.submit_button && (inp.user_input != "")) = true
  · obtain ⟨heq, hlab⟩ := handleAction_direct env st inp h1
    rw [heq] at h
    rw [heq, hlab]
    exact ⟨(directBranch_ok_some h).1, (directBranch_ok_some h).2.1⟩
  · have h1f : (inp.submit_button && (inp.user_input != "")) = false := by
      simp only [Bool.not_eq_true] at h1; exact h1
    cases huf : inp.uploaded_file with
    | some bytes =>
      cases hfs : inp.file_submitted_button with
      | true =>
        obtain ⟨heq, hlab⟩ := handleAction_file env st inp h1f huf hfs
        rw [heq] at h
        rw [heq, hlab]
        exact fileBranch_ok_some h
      | false =>
        by_cases h3 : inp.submitted_button = true
        · obtain ⟨heq, hlab⟩ := handleAction_video env st inp h1f (Or.inr hfs) h3
          rw [heq] at h
          rw [heq, hlab]
          exact videoBranch_ok_some h
        · have h3f : inp.submitted_button = false := by
            simp only [Bool.not_eq_true] at h3; exact h3
          rw [handleAction_noop env st inp h1f (Or.inr hfs) h3f] at h
          exact Option.noConfusion (Except.ok.inj h)
    | none =>
      by_cases h3 : inp.submitted_button = true
      · obtain ⟨heq, hlab⟩ := handleAction_video env st inp h1f (Or.inl huf) h3
        rw [heq] at h
        rw [heq, hlab]
        exact videoBranch_ok_some h
      · have h3f : inp.submitted_button = false := by
          simp only [Bool.not_eq_true] at h3; exact h3
        rw [handleAction_noop env st inp h1f (Or.inl huf) h3f] at h
        exact Option.noConfusion (Except.ok.inj h)

/-- An aborted action leaves the whole session state unchanged: the raise
happens before any history or memory mutation. -/
theorem handleAction_error {env : Env} {st : SessionState} {inp : Inputs}
    {e : ActionError} (h : (handleAction env st inp).2 = Except.error e) :
    (handleAction env st inp).1 = st := by
  by_cases h1 : (inp.submit_button && (inp.user_input != "")) = true
  · obtain ⟨heq, -⟩ := handleAction_direct env st inp h1
    rw [heq] at h
    rw [heq]
    exact directBranch_error h
  · have h1f : (inp.submit_button && (inp.user_input != "")) = false := by
      simp only [Bool.not_eq_true] at h1; exact h1
    cases huf : inp.uploaded_file with
    | some bytes =>
      cases hfs : inp.file_submitted_button with
      | true =>
        obtain ⟨heq, -⟩ := handleAction_file env st inp h1f huf hfs
        rw [heq] at h
        rw [heq]
        exact fileBranch_error h
      | false =>
        by_cases h3 : inp.submitted_button = true
        · obtain ⟨heq, -⟩ := handleAction_video env st inp h1f (Or.inr hfs) h3
          rw [heq] at h
          rw [heq]
          exact videoBranch_error h
        · have h3f : inp.submitted_button = false := by
            simp only [Bool.not_eq_true] at h3; exact h3
          rw [handleAction_noop env st inp h1f (Or.inr hfs) h3f] at h
          exact Except.noConfusion h
    | none =>
      by_cases h3 : inp.submitted_button = true
      · obtain ⟨heq, -⟩ := handleAction_video env st inp h1f (Or.inl huf) h3
        rw [heq] at h
        rw [heq]
        exact videoBranch_error h
      · have h3f : inp.submitted_button = false := by
          simp only [Bool.not_eq_true] at h3; exact h3
        rw [handleAction_noop env st inp h1f (Or.inl huf) h3f] at h
        exact Except.noConfusion h

/-- A run whose action dispatch yields no reply ran no branch, so the state
is untouched. -/
theorem handleAction_ok_none {env : Env} {st : SessionState} {inp : Inputs}
    (h : (handleAction env st inp).2 = Except.ok none) :
    (handleAction env st inp).1 = st := by
  by_cases h1 : (inp.submit_button && (inp.user_input != "")) = true
  · obtain ⟨heq, -⟩ := handleAction_direct env st inp h1
    rw [heq] at h
    exact (directBranch_not_ok_none h).elim
  · have h1f : (inp.submit_button && (inp.user_input != "")) = false := by
      simp only [Bool.not_eq_true] at h1; exact h1
    cases huf : inp.uploaded_file with
    | some bytes =>
      cases hfs : inp.file_submitted_button with
      | true =>
        obtain ⟨heq, -⟩ := handleAction_file env st inp h1f huf hfs
        rw [heq] at h
        exact (fileBranch_not_ok_none h).elim
      | false =>
        by_cases h3 : inp.submitted_button = true
        · obtain ⟨heq, -⟩ := handleAction_video env st inp h1f (Or.inr hfs) h3
          rw [heq] at h
          exact (videoBranch_not_ok_none h).elim
        · have h3f : inp.submitted_button = false := by
            simp only [Bool.not_eq_true] at h3; exact h3
          rw [handleAction_noop env st inp h1f (Or.inr hfs) h3f]
    | none =>
      by_cases h3 : inp.submitted_button = true
      · obtain ⟨heq, -⟩ := handleAction_video env st inp h1f (Or.inl huf) h3
        rw [heq] at h
        exact (videoBranch_not_ok_none h).elim
      · have h3f : inp.submitted_button = false := by
          simp only [Bool.not_eq_true] at h3; exact h3
        rw [handleAction_noop env st inp h1f (Or.inl huf) h3f]

/-! Lemmas about the clear handler, display block and full run. -/

theorem handleClear_false {st : SessionState} {inp : Inputs}
    (h : inp.clear_button = false) : handleClear st inp = st := by
  simp [handleClear, h]

theorem handleClear_true {st : SessionState} {inp : Inputs}
    (h : inp.clear_button = true) :
    handleClear st inp =
      { generated := [], previous := [], unique_id := inp.fresh_id,
        unique_id_2 := inp.fresh_id_2, memory := [] } := by
  simp [handleClear, h]

theorem runDisplay_empty {env : Env} {st : SessionState} {out : Option String}
    (h : st.previous.isEmpty = true) : runDisplay env st out = Except.ok none := by
  unfold runDisplay
  rw [if_pos h]

theorem runDisplay_unbound {env : Env} {st : SessionState} :
    runDisplay env st none = Except.ok none := by
  unfold runDisplay
  by_cases h : st.previous.isEmpty = true
  · rw [if_pos h]
  · rw [if_neg h]

theorem runDisplay_nomatch {env : Env} {st : SessionState} {o : String}
    (hne : st.previous.isEmpty = false)
    (hm : reSearchBetween thumbStart thumbEnd o.toList = none) :
    runDisplay env st (some o) = Except.ok none := by
  unfold runDisplay
  rw [if_neg (by rw [hne]; exact Bool.false_ne_true)]
  dsimp only
  rw [hm]

theorem runDisplay_match_ok {env : Env} {st : SessionState} {o : String}
    {g : List Char} {b64 : String}
    (hne : st.previous.isEmpty = false)
    (hm : reSearchBetween thumbStart thumbEnd o.toList = some g)
    (hg : env.generate_image (imagePromptPre ++ String.mk (pyStrip g))
            = Except.ok b64) :
    runDisplay env st (some o) = Except.ok (some (env.base64_to_pil b64)) := by
  unfold runDisplay
  rw [if_neg (by rw [hne]; exact Bool.false_ne_true)]
  dsimp only
  rw [hm]
  dsimp only
  rw [hg]

theorem runDisplay_match_error {env : Env} {st : SessionState} {o : String}
    {g : List Char} {e : GenerationError}
    (hne : st.previous.isEmpty = false)
    (hm : reSearchBetween thumbStart thumbEnd o.toList = some g)
    (hg : env.generate_image (imagePromptPre ++ String.mk (pyStrip g))
            = Except.error e) :
    runDisplay env st (some o) = Except.error e := by
  unfold runDisplay
  rw [if_neg (by rw [hne]; exact Bool.false_ne_true)]
  dsimp only
  rw [hm]
  dsimp only
  rw [hg]

theorem runScript_of_action {env : Env} {st : SessionState} {inp : Inputs}
    {st2 : SessionState} {out : Option String}
    (h : handleAction env (handleClear st inp) inp = (st2, Except.ok out)) :
    runScript env st inp =
      match runDisplay env st2 out with
      | Except.error e => (st2, Except.error (ScriptError.generation e))
      | Except.ok img => (st2, Except.ok (out, img)) := by
  unfold runScript
  rw [h]

theorem runScript_of_action_error {env : Env} {st : SessionState} {inp : Inputs}
    {st2 : SessionState} {e : ActionError}
    (h : handleAction env (handleClear st inp) inp = (st2, Except.error e)) :
    runScript env st inp = (st2, Except.error (ScriptError.action e)) := by
  unfold runScript
  rw [h]

theorem runScript_state (env : Env) (st : SessionState) (inp : Inputs) :
    (runScript env st inp).1 = (handleAction env (handleClear st inp) inp).1 := by
  unfold runScript
  cases hha : handleAction env (handleClear st inp) inp with
  | mk st2 res =>
    cases res with
    | error e => rfl
    | ok output =>
      dsimp only
      cases hd : runDisplay env st2 output with
      | error e => rfl
      | ok img => rfl

theorem string_append_assoc (a b c : String) : a ++ b ++ c = a ++ (b ++ c) := by
  rcases a with ⟨da⟩; rcases b with ⟨db⟩; rcases c with ⟨dc⟩
  apply congrArg String.mk
  exact List.append_assoc da db dc

/-! ## Claim C4: the response-section extractor -/

set_option maxRecDepth 40000

/-- C4: the extractor does a non-greedy leftmost search for the start label
followed (across line breaks) by the end label and returns the trimmed text
strictly between them; the spec example yields "ABC"; it returns `none`
(not an error) when either label is absent or when the end label only
occurs before the start label. -/
theorem extractThumbnail_spec (s : String) (i j : Nat) :
    extractThumbnail "...Thumbnail Prompt: ABC Content Enhancement:..." = some "ABC" ∧
    extractThumbnail "Thumbnail Prompt: A Content Enhancement: B Content Enhancement:"
      = some "A" ∧
    extractThumbnail "Thumbnail Prompt:\nABC\nContent Enhancement:" = some "ABC" ∧
    ((∀ k, occursAt thumbStart s.toList k = false) → extractThumbnail s = none) ∧
    ((∀ k, occursAt thumbEnd s.toList k = false) → extractThumbnail s = none) ∧
    ((∀ a b, occursAt thumbStart s.toList a = true →
        occursAt thumbEnd s.toList b = true → b < a) → extractThumbnail s = none) ∧
    (occursAt thumbStart s.toList i = true →
     (∀ k, k < i → matchAt thumbStart thumbEnd s.toList k = false) →
     occursAt thumbEnd (s.toList.drop (i + thumbStart.length)) j = true →
     (∀ k, k < j → occursAt thumbEnd (s.toList.drop (i + thumbStart.length)) k = false) →
     extractThumbnail s
       = some (String.mk (pyStrip ((s.toList.drop (i + thumbStart.length)).take j)))) := by
  refine ⟨by decide, by decide, by decide, ?_, ?_, ?_, ?_⟩
  · intro h
    unfold extractThumbnail
    rw [reSearch_none_of_no_start h]
    rfl
  · intro h
    unfold extractThumbnail
    rw [reSearch_none_of_no_end h]
    rfl
  · intro h
    unfold extractThumbnail
    rw [reSearch_none_of_order h]
    rfl
  · intro h1 h2 h3 h4
    have hj : findSub thumbEnd (s.toList.drop (i + thumbStart.length)) = some j :=
      findSub_complete h3 h4
    unfold extractThumbnail
    rw [reSearch_pos h1 h2 hj]
    rfl

/-- C4 witness: the absent-start-label case at a concrete reply. -/
theorem extractThumbnail_spec_witness :
    extractThumbnail "a reply with no section labels at all" = none :=
  (extractThumbnail_spec "a reply with no section labels at all" 0 0).2.2.2.1
    (findSub_none_no_occurs (by decide))

/-! ## Claim C5: the prompt builder -/

/-- C5: `create_prompt` is pure and deterministic, the built prompt contains
the context verbatim, and the six checklist items follow it in their fixed
order. -/
theorem create_prompt_spec (x : String) :
    create_prompt x = create_prompt x ∧
    (∃ l r, create_prompt x = l ++ x ++ r ∧
      appearsInOrder checklistItems r.toList = true) := by
  refine ⟨rfl, promptPre, promptMid ++ questions ++ promptSuf, ?_, by decide⟩
  unfold create_prompt
  simp only [string_append_assoc]

/-! ## Claim C8: the extractor labels appear verbatim in the checklist -/

/-- C8: both literal labels of the extraction pattern occur verbatim in the
`questions` checklist that `create_prompt` embeds into every prompt. -/
theorem labels_in_checklist :
    (findSub thumbStart questions.toList).isSome = true ∧
    (findSub thumbEnd questions.toList).isSome = true ∧
    (∀ x, ∃ l r, create_prompt x = l ++ questions ++ r) := by
  refine ⟨by decide, by decide, ?_⟩
  intro x
  exact ⟨promptPre ++ x ++ promptMid, promptSuf, rfl⟩

/-! ## Concrete fixtures used by counterexamples and witnesses -/

/-- A reply that contains both section labels. -/
def replyWithLabels : String :=
  "In this post we discuss cats. Thumbnail Prompt: a cute orange cat Content Enhancement: add captions"

/-- An environment whose chat model answers `replyWithLabels` and whose
image endpoint always fails. -/
def envGenFail : Env :=
  { llm := fun _ _ => Except.ok replyWithLabels
    get_video_transcript := fun _ => Except.error { msg := "no transcript" }
    decode_utf8 := fun _ => Except.error { msg := "bad encoding" }
    generate_image := fun _ => Except.error { msg := "quota exceeded" }
    base64_to_pil := fun _ => [] }

/-- An environment where everything succeeds. -/
def envAllOk : Env :=
  { llm := fun _ _ => Except.ok replyWithLabels
    get_video_transcript := fun _ => Except.ok "Hello world, today we discuss cats."
    decode_utf8 := fun _ => Except.ok "decoded document"
    generate_image := fun _ => Except.ok "aGVsbG8="
    base64_to_pil := fun _ => [104, 101, 108, 108, 111] }

/-- An environment whose chat model always fails. -/
def envLlmFail : Env :=
  { llm := fun _ _ => Except.error { msg := "model unavailable" }
    get_video_transcript := fun _ => Except.ok "transcript"
    decode_utf8 := fun _ => Except.ok "document"
    generate_image := fun _ => Except.ok "aGVsbG8="
    base64_to_pil := fun _ => [] }

/-- A fresh session state. -/
def initialState : SessionState :=
  { generated := [], previous := [], unique_id := "1000", unique_id_2 := "2000",
    memory := [] }

/-- The widget values of a direct-message send. -/
def inpSend (msg : String) : Inputs :=
  { clear_button := false, fresh_id := "9001", fresh_id_2 := "9002", url := ""
    submitted_button := false, uploaded_file := none
    file_submitted_button := false, user_input := msg, submit_button := true }

/-- The widget values of a clear-conversation click. -/
def inpClear : Inputs :=
  { clear_button := true, fresh_id := "7777", fresh_id_2 := "8888", url := ""
    submitted_button := false, uploaded_file := none
    file_submitted_button := false, user_input := "", submit_button := false }

/-- The widget values of a rerun with no action. -/
def inpIdle : Inputs :=
  { clear_button := false, fresh_id := "1", fresh_id_2 := "2", url := ""
    submitted_button := false, uploaded_file := none
    file_submitted_button := false, user_input := "", submit_button := false }

/-! ## Claim C1: image-generation failure is NOT caught -/

/-- C1 counterexample: a direct message whose chat reply succeeds and whose
image-generation call fails.  The reply is appended to history, but the run
ends in the (uncaught) generation error rather than completing with no
image, contradicting the claim that the turn completes normally exposing no
image. -/
theorem generation_failure_aborts_run :
    (runScript envGenFail initialState (inpSend "hi")).1.generated = [replyWithLabels] ∧
    (runScript envGenFail initialState (inpSend "hi")).2
      = Except.error (ScriptError.generation { msg := "quota exceeded" }) ∧
    (runScript envGenFail initialState (inpSend "hi")).2
      ≠ Except.ok (some replyWithLabels, none) := by
  refine ⟨rfl, rfl, fun hcon => Except.noConfusion hcon⟩

/-- Extracts from a successful action: the post-action state has non-empty
history and the reply is its newest entry. -/
theorem action_ok_parts {env : Env} {st : SessionState} {inp : Inputs}
    {st2 : SessionState} {o : String}
    (hact : handleAction env (handleClear st inp) inp = (st2, Except.ok (some o))) :
    st2.previous.isEmpty = false ∧ st2.generated.getLast? = some o := by
  have h2 : (handleAction env (handleClear st inp) inp).2 = Except.ok (some o) := by
    rw [hact]
  obtain ⟨hp, hg⟩ := handleAction_ok_some h2
  rw [hact] at hp hg
  constructor
  · rw [hp]
    cases (handleClear st inp).previous <;> rfl
  · rw [hg]
    exact List.getLast?_concat _

/-- C1 (amended): if the chat reply succeeds, the extractor matches, and
the image-generation call fails, the reply does remain appended to history
(appends precede the display block), but the run surfaces the generation
error instead of completing with no image: the exception is not caught. -/
theorem generation_failure_keeps_history (env : Env) (st : SessionState)
    (inp : Inputs) (st2 : SessionState) (o : String) (g : List Char)
    (e : GenerationError)
    (hact : handleAction env (handleClear st inp) inp = (st2, Except.ok (some o)))
    (hm : reSearchBetween thumbStart thumbEnd o.toList = some g)
    (hg : env.generate_image (imagePromptPre ++ String.mk (pyStrip g))
            = Except.error e) :
    (runScript env st inp).1.generated.getLast? = some o ∧
    (runScript env st inp).2 = Except.error (ScriptError.generation e) := by
  obtain ⟨hne, hlast⟩ := action_ok_parts hact
  have hdisp := runDisplay_match_error hne hm hg
  rw [runScript_of_action hact, hdisp]
  exact ⟨hlast, rfl⟩

/-- C1 witness for the amended theorem, at the counterexample input. -/
theorem generation_failure_keeps_history_witness :
    (runScript envGenFail initialState (inpSend "hi")).1.generated.getLast?
      = some replyWithLabels ∧
    (runScript envGenFail initialState (inpSend "hi")).2
      = Except.error (ScriptError.generation { msg := "quota exceeded" }) :=
  generation_failure_keeps_history envGenFail initialState (inpSend "hi")
    { generated := [replyWithLabels], previous := ["hi"], unique_id := "1000",
      unique_id_2 := "2000", memory := [("hi", replyWithLabels)] }
    replyWithLabels " a cute orange cat ".toList { msg := "quota exceeded" }
    rfl rfl rfl

/-! ## Claim C9: the NameError on an action-free render is caught -/

/-- C9: on a render cycle with non-empty history where no action ran (the
local `output` stays unbound), the caught NameError is treated as no match:
the run completes normally with no illustration. -/
theorem unbound_output_render_ok (env : Env) (st : SessionState) (inp : Inputs)
    (hc : inp.clear_button = false) (hs : inp.submit_button = false)
    (hf : inp.file_submitted_button = false) (hv : inp.submitted_button = false)
    (_hne : st.previous ≠ []) :
    runScript env st inp = (st, Except.ok (none, none)) := by
  have h1 : (inp.submit_button && (inp.user_input != "")) = false := by
    rw [hs]; rfl
  have hact := handleAction_noop env (handleClear st inp) inp h1 (Or.inr hf) hv
  rw [runScript_of_action hact, runDisplay_unbound]
  dsimp only
  rw [handleClear_false hc]

/-- C9 witness: an idle rerun over a one-turn history. -/
theorem unbound_output_render_ok_witness :
    runScript envAllOk
      { generated := ["a reply"], previous := ["hello"], unique_id := "1",
        unique_id_2 := "2", memory := [("hello", "a reply")] } inpIdle
      = ({ generated := ["a reply"], previous := ["hello"], unique_id := "1",
           unique_id_2 := "2", memory := [("hello", "a reply")] },
         Except.ok (none, none)) :=
  unbound_output_render_ok envAllOk _ inpIdle rfl rfl rfl rfl (by decide)

/-! ## Claim C10: an empty direct message is a no-op -/

/-- C10: submitting the form with empty text runs no branch: no oracle is
consulted, the state (history lists and chat memory) is unchanged, and the
run completes normally with no reply and no image. -/
theorem empty_message_noop (env : Env) (st : SessionState) (inp : Inputs)
    (hc : inp.clear_button = false) (hs : inp.submit_button = true)
    (he : inp.user_input = "") (hf : inp.file_submitted_button = false)
    (hv : inp.submitted_button = false) :
    runScript env st inp = (st, Except.ok (none, none)) := by
  have h1 : (inp.submit_button && (inp.user_input != "")) = false := by
    rw [hs, he]; rfl
  have hact := handleAction_noop env (handleClear st inp) inp h1 (Or.inr hf) hv
  rw [runScript_of_action hact, runDisplay_unbound]
  dsimp only
  rw [handleClear_false hc]

/-- C10 witness: an empty send over a one-turn history, with a state whose
memory would change if any branch ran. -/
theorem empty_message_noop_witness :
    runScript envAllOk
      { generated := ["a reply"], previous := ["hello"], unique_id := "1",
        unique_id_2 := "2", memory := [("hello", "a reply")] } (inpSend "")
      = ({ generated := ["a reply"], previous := ["hello"], unique_id := "1",
           unique_id_2 := "2", memory := [("hello", "a reply")] },
         Except.ok (none, none)) :=
  empty_message_noop envAllOk _ (inpSend "") rfl rfl rfl rfl rfl

/-! ## Claim C3: acquisition/decode/inference failures abort cleanly -/

/-- C3: when the action branch raises (acquisition, decode, or inference
failure), the run aborts with that error surfaced and the session state —
both history lists and the chat memory — is exactly unchanged.  The second
conjunct instantiates this for a failing remote chat call on the
direct-message branch. -/
theorem action_error_state_unchanged (env : Env) (st : SessionState)
    (inp : Inputs) (hc : inp.clear_button = false) :
    (∀ e, (handleAction env st inp).2 = Except.error e →
      runScript env st inp = (st, Except.error (ScriptError.action e))) ∧
    (inp.submit_button = true → inp.user_input ≠ "" →
      ∀ ie, env.llm st.memory inp.user_input = Except.error ie →
        runScript env st inp
          = (st, Except.error (ScriptError.action (ActionError.inference ie)))) := by
  constructor
  · intro e h
    have hstate := handleAction_error h
    have hpair : handleAction env st inp
        = ((handleAction env st inp).1, (handleAction env st inp).2) := rfl
    rw [hstate, h] at hpair
    exact runScript_of_action_error (by rw [handleClear_false hc]; exact hpair)
  · intro hsb hne ie hllm
    have h1 : (inp.submit_button && (inp.user_input != "")) = true := by
      rw [hsb, Bool.true_and, bne_iff_ne]
      exact hne
    obtain ⟨heq, -⟩ := handleAction_direct env st inp h1
    have hdb : directBranch env st inp.user_input
        = (st, Except.error (ActionError.inference ie)) := by
      unfold directBranch chainCall
      rw [hllm]
    have hpair : handleAction env st inp
        = (st, Except.error (ActionError.inference ie)) := by rw [heq, hdb]
    exact runScript_of_action_error (by rw [handleClear_false hc]; exact hpair)

/-- C3 witness: a failing chat model on a direct message over a one-turn
history leaves the state untouched and surfaces the inference error. -/
theorem action_error_state_unchanged_witness :
    runScript envLlmFail
      { generated := ["a reply"], previous := ["hello"], unique_id := "1",
        unique_id_2 := "2", memory := [("hello", "a reply")] } (inpSend "hi")
      = ({ generated := ["a reply"], previous := ["hello"], unique_id := "1",
           unique_id_2 := "2", memory := [("hello", "a reply")] },
         Except.error (ScriptError.action
           (ActionError.inference { msg := "model unavailable" }))) :=
  (action_error_state_unchanged envLlmFail _ (inpSend "hi") rfl).2
    rfl (by decide) { msg := "model unavailable" } rfl

/-! ## Claim C6: the display recomputes the extraction from the newest reply -/

/-- C6: whenever an action appends a reply, the display block runs the
extractor on exactly that newest reply of the session, and on a match (with
a succeeding generator) the decoded image is exposed for display. -/
theorem newest_reply_drives_display (env : Env) (st : SessionState)
    (inp : Inputs) (st2 : SessionState) (o : String) (g : List Char)
    (b64 : String)
    (hact : handleAction env (handleClear st inp) inp = (st2, Except.ok (some o)))
    (hm : reSearchBetween thumbStart thumbEnd o.toList = some g)
    (hg : env.generate_image (imagePromptPre ++ String.mk (pyStrip g))
            = Except.ok b64) :
    (runScript env st inp).1.generated.getLast? = some o ∧
    (runScript env st inp).2 = Except.ok (some o, some (env.base64_to_pil b64)) := by
  obtain ⟨hne, hlast⟩ := action_ok_parts hact
  have hdisp := runDisplay_match_ok hne hm hg
  rw [runScript_of_action hact, hdisp]
  exact ⟨hlast, rfl⟩

/-- C6 witness: a direct message whose reply matches, with a succeeding
image endpoint. -/
theorem newest_reply_drives_display_witness :
    (runScript envAllOk initialState (inpSend "hi")).1.generated.getLast?
      = some replyWithLabels ∧
    (runScript envAllOk initialState (inpSend "hi")).2
      = Except.ok (some replyWithLabels, some [104, 101, 108, 108, 111]) :=
  newest_reply_drives_display envAllOk initialState (inpSend "hi")
    { generated := [replyWithLabels], previous := ["hi"], unique_id := "1000",
      unique_id_2 := "2000", memory := [("hi", replyWithLabels)] }
    replyWithLabels " a cute orange cat ".toList "aGVsbG8="
    rfl rfl rfl

/-! ## Claim C7: reset clears everything and only that -/

/-- C7: a clear-conversation click, after any state, empties both history
lists, clears the chain memory, and sets both widget-keying identity tokens
to the fresh random draws; the state record equality shows nothing else
changes, and the run completes normally.  The second conjunct shows a
subsequent direct send starts from empty memory: the model is called with
no prior context and the new memory holds only the new turn. -/
theorem reset_clears_session (env : Env) (st : SessionState) (inp inp2 : Inputs)
    (r : String)
    (hc : inp.clear_button = true) (hs : inp.submit_button = false)
    (hf : inp.file_submitted_button = false) (hv : inp.submitted_button = false) :
    runScript env st inp
      = ({ generated := [], previous := [], unique_id := inp.fresh_id,
           unique_id_2 := inp.fresh_id_2, memory := [] },
         Except.ok (none, none)) ∧
    (inp2.clear_button = false → inp2.submit_button = true →
      inp2.user_input ≠ "" → env.llm [] inp2.user_input = Except.ok r →
      (runScript env (runScript env st inp).1 inp2).1.memory
        = [(inp2.user_input, r)] ∧
      (runScript env (runScript env st inp).1 inp2).1.generated = [r] ∧
      (runScript env (runScript env st inp).1 inp2).1.previous
        = [inp2.user_input]) := by
  have h1 : (inp.submit_button && (inp.user_input != "")) = false := by
    rw [hs]; rfl
  have hact := handleAction_noop env (handleClear st inp) inp h1 (Or.inr hf) hv
  rw [handleClear_true hc] at hact
  have hpart1 : runScript env st inp
      = ({ generated := [], previous := [], unique_id := inp.fresh_id,
           unique_id_2 := inp.fresh_id_2, memory := [] },
         Except.ok (none, none)) := by
    rw [runScript_of_action (by rw [handleClear_true hc]; exact hact)]
    rw [runDisplay_empty (by rfl)]
  refine ⟨hpart1, ?_⟩
  intro hc2 hsb2 hne2 hllm
  rw [hpart1]
  have h1b : (inp2.submit_button && (inp2.user_input != "")) = true := by
    rw [hsb2, Bool.true_and, bne_iff_ne]
    exact hne2
  obtain ⟨heq, -⟩ := handleAction_direct env
    { generated := [], previous := [], unique_id := inp.fresh_id,
      unique_id_2 := inp.fresh_id_2, memory := [] } inp2 h1b
  rw [runScript_state, handleClear_false hc2, heq]
  unfold directBranch chainCall
  dsimp only
  rw [hllm]
  exact ⟨rfl, rfl, rfl⟩

/-- C7 witness: reset over a one-turn session, then a fresh send. -/
theorem reset_clears_session_witness :
    runScript envAllOk
      { generated := ["a reply"], previous := ["hello"], unique_id := "1",
        unique_id_2 := "2", memory := [("hello", "a reply")] } inpClear
      = ({ generated := [], previous := [], unique_id := "7777",
           unique_id_2 := "8888", memory := [] },
         Except.ok (none, none)) ∧
    ((runScript envAllOk
        (runScript envAllOk
          { generated := ["a reply"], previous := ["hello"], unique_id := "1",
            unique_id_2 := "2", memory := [("hello", "a reply")] } inpClear).1
        (inpSend "fresh start")).1.memory
      = [("fresh start", replyWithLabels)] ∧
     (runScript envAllOk
        (runScript envAllOk
          { generated := ["a reply"], previous := ["hello"], unique_id := "1",
            unique_id_2 := "2", memory := [("hello", "a reply")] } inpClear).1
        (inpSend "fresh start")).1.generated = [replyWithLabels] ∧
     (runScript envAllOk
        (runScript envAllOk
          { generated := ["a reply"], previous := ["hello"], unique_id := "1",
            unique_id_2 := "2", memory := [("hello", "a reply")] } inpClear).1
        (inpSend "fresh start")).1.previous = ["fresh start"]) :=
  ⟨(reset_clears_session envAllOk _ inpClear (inpSend "fresh start")
      replyWithLabels rfl rfl rfl rfl).1,
   (reset_clears_session envAllOk _ inpClear (inpSend "fresh start")
      replyWithLabels rfl rfl rfl rfl).2 rfl rfl (by decide) rfl⟩

/-! ## Claim C2: history lists stay aligned -/

theorem SuccessfulRun_take (env : Env) :
    ∀ (l : List Inputs) (st : SessionState) (n : Nat),
      SuccessfulRun env st l → SuccessfulRun env st (l.take n) := by
  intro l
  induction l with
  | nil =>
    intro st n h
    rw [List.take_nil]
    exact h
  | cons i rest ih =>
    intro st n h
    have h2 : ActionOk env st i ∧ SuccessfulRun env (runScriptS env st i) rest := h
    cases n with
    | zero =>
      rw [List.take_zero]
      exact True.intro
    | succ n =>
      rw [List.take_succ_cons]
      exact (⟨h2.1, ih (runScriptS env st i) n h2.2⟩ :
        ActionOk env st i ∧ SuccessfulRun env (runScriptS env st i) (rest.take n))

/-- Trace of a successful clear-free run: the history lists accumulate
exactly the labels and replies of the exchanges, in order. -/
theorem runList_trace (env : Env) :
    ∀ (l : List Inputs) (st : SessionState),
      SuccessfulRun env st l → (∀ i ∈ l, i.clear_button = false) →
      (runList env st l).previous
          = st.previous ++ (exchangesOf env st l).map Prod.fst ∧
      (runList env st l).generated
          = st.generated ++ (exchangesOf env st l).map Prod.snd := by
  intro l
  induction l with
  | nil =>
    intro st _ _
    constructor <;> simp [runList, exchangesOf]
  | cons i rest ih =>
    intro st hsucc hclear
    have h2 : ActionOk env st i ∧ SuccessfulRun env (runScriptS env st i) rest := hsucc
    obtain ⟨hA, hsucc2⟩ := h2
    obtain ⟨o, ho⟩ : ∃ o, (handleAction env (handleClear st i) i).2
        = Except.ok (some o) := hA
    have hclr : i.clear_button = false := hclear i (List.mem_cons_self i rest)
    have hclear2 : ∀ x ∈ rest, x.clear_button = false :=
      fun x hx => hclear x (List.mem_cons_of_mem i hx)
    have hclr2 := @handleClear_false st i hclr
    rw [hclr2] at ho
    have hstep := handleAction_ok_some ho
    have hS : runScriptS env st i = (handleAction env st i).1 := by
      have h3 := runScript_state env st i
      rw [hclr2] at h3
      exact h3
    obtain ⟨ihp, ihg⟩ := ih (runScriptS env st i) hsucc2 hclear2
    simp only [runList, exchangesOf, hclr2, ho]
    constructor
    · rw [ihp, hS, hstep.1]
      simp [List.append_assoc]
    · rw [ihg, hS, hstep.2]
      simp [List.append_assoc]

/-- C2: starting from empty history, after each prefix of a sequence of
successful (clear-free) actions the two lists have equal length and are
index-aligned: `previous` is exactly the list of the exchanges' input (or
placeholder) labels and `generated` exactly the list of their replies. -/
theorem history_aligned (env : Env) (st0 : SessionState) (l : List Inputs)
    (n : Nat) (h0p : st0.previous = []) (h0g : st0.generated = [])
    (hsucc : SuccessfulRun env st0 l)
    (hclear : ∀ i ∈ l, i.clear_button = false) :
    (runList env st0 (l.take n)).previous.length
      = (runList env st0 (l.take n)).generated.length ∧
    (runList env st0 (l.take n)).previous
      = (exchangesOf env st0 (l.take n)).map Prod.fst ∧
    (runList env st0 (l.take n)).generated
      = (exchangesOf env st0 (l.take n)).map Prod.snd := by
  have hsucc2 : SuccessfulRun env st0 (l.take n) :=
    SuccessfulRun_take env l st0 n hsucc
  have hclear2 : ∀ i ∈ l.take n, i.clear_button = false :=
    fun i hi => hclear i (List.take_subset n l hi)
  obtain ⟨hp, hg⟩ := runList_trace env (l.take n) st0 hsucc2 hclear2
  rw [h0p] at hp
  rw [h0g] at hg
  rw [List.nil_append] at hp hg
  exact ⟨by rw [hp, hg]; simp, hp, hg⟩

/-- C2 witness: one successful direct-message action from a fresh state. -/
theorem history_aligned_witness :
    (runList envAllOk initialState ([inpSend "hi"].take 1)).previous.length
      = (runList envAllOk initialState ([inpSend "hi"].take 1)).generated.length ∧
    (runList envAllOk initialState ([inpSend "hi"].take 1)).previous
      = (exchangesOf envAllOk initialState ([inpSend "hi"].take 1)).map Prod.fst ∧
    (runList envAllOk initialState ([inpSend "hi"].take 1)).generated
      = (exchangesOf envAllOk initialState ([inpSend "hi"].take 1)).map Prod.snd :=
  history_aligned envAllOk initialState [inpSend "hi"] 1 rfl rfl
    ⟨⟨replyWithLabels, rfl⟩, True.intro⟩ (by decide)

end YTAnalyzer